import Mathlib

/-!
# LED controller native bridge (`app/src/main/cpp/native-lib.cpp`)

A shallow embedding of the JNI bridge that talks to the character device
`/dev/led_ctrl`: the cached descriptor `led_fd`, `ensure_fd`, `fallback_state`
and the two JNI entry points `nativeWriteImpl` (send a command) and
`nativeReadImpl` (read the status line).

The operating system is an explicit parameter: every system call asks an
`OS` value for its outcome, handing it the whole history of earlier calls and
its own arguments, so an `OS` value stands for an arbitrary deterministic
kernel and driver.  The process state is a `World`: the global `led_fd`,
`errno`, the chronological record of the system calls issued so far, and the
diagnostics written to the Android log.

Conventions.
* Bytes are natural numbers (a `char` value), C strings are `List Nat`
  without the terminating NUL.
* `int` and `ssize_t` values are `Int`; the one narrowing conversion of the
  source, `static_cast<jint>`, is `toJint` (reduction to 32-bit two's
  complement).  What a Linux `write` can return is bounded by `MAX_RW_COUNT`.
* A Java string is identified with its modified-UTF-8 encoding, which
  determines it.  `NewStringUTF` yields a Java string only for an argument that
  is well-formed modified UTF-8; for any other argument JNI promises nothing
  and the model says `JString.unspecified`.
* Undefined behaviour (a store past the end of `buffer`) is the result `none`.
* The logging call, `strerror` and `ReleaseStringUTFChars` leave `errno`
  untouched.
-/

namespace LedController

/-! ## Platform constants (from `fcntl.h`, `errno.h`, `unistd.h`, `android/log.h`) -/

def O_RDWR : Nat := 2
def O_CLOEXEC : Nat := 524288
def SEEK_SET : Nat := 0
def EINVAL : Int := 22
def ANDROID_LOG_WARN : Nat := 5
def ANDROID_LOG_ERROR : Nat := 6

/-- Most bytes one `read` or `write` transfers on Linux, `INT_MAX & PAGE_MASK`:
0x7ffff000 with 4 KiB pages, less with larger pages. -/
def MAX_RW_COUNT : Int := 2147479552

/-! ## Constants of the source -/

def DEVICE_PATH : String := "/dev/led_ctrl"
def BUFFER_SIZE : Nat := 256

/-- Flags `O_RDWR | O_CLOEXEC` passed to `open`. -/
def OPEN_FLAGS : Nat := O_RDWR ||| O_CLOEXEC

/-! ## Operating-system interface -/

/-- One system call as issued by the process, with the value it returned. -/
inductive Event where
  | openCall (path : String) (flags : Nat) (ret : Int)
  | writeCall (fd : Int) (data : List Nat) (count : Nat) (ret : Int)
  | lseekCall (fd : Int) (offset : Int) (whence : Nat) (ret : Int)
  | closeCall (fd : Int)
  | readCall (fd : Int) (count : Nat) (ret : Int)
  deriving DecidableEq, Repr

/-- Outcome of a system call: the returned value and the code stored in
`errno` when that value is negative. -/
structure SysRet where
  ret : Int
  err : Int
  deriving DecidableEq, Repr

/-- Outcome of `read`: returned value, the bytes the driver offers for the
user buffer, and the code stored in `errno` when the value is negative. -/
structure ReadRet where
  ret : Int
  data : List Nat
  err : Int
  deriving DecidableEq, Repr

/-- An arbitrary deterministic kernel: each outcome may depend on all earlier
system calls (first argument) and on the arguments of the call. -/
structure OS where
  openRet : List Event → String → Nat → SysRet
  writeRet : List Event → Int → List Nat → Nat → SysRet
  lseekRet : List Event → Int → Int → Nat → SysRet
  closeRet : List Event → Int → SysRet
  readRet : List Event → Int → Nat → ReadRet

/-- A line handed to `__android_log_print`: priority, format string and the
value of `errno` whose `strerror` text is formatted into it. -/
structure LogEntry where
  prio : Nat
  fmt : String
  code : Int
  deriving DecidableEq, Repr

/-- Process state: the global `led_fd`, `errno`, the system calls issued so
far (oldest first) and the log. -/
structure World where
  led_fd : Int
  errno : Int
  trace : List Event
  logs : List LogEntry
  deriving DecidableEq, Repr

/-- State at process start: `int led_fd = -1;`, nothing called yet. -/
def World.init : World := { led_fd := -1, errno := 0, trace := [], logs := [] }

/-- Value of `errno` after a call that returned `ret`. -/
def errnoAfter (old ret err : Int) : Int := if ret < 0 then err else old

/-- System call `open(path, flags)`. -/
def sys_open (os : OS) (w : World) (path : String) (flags : Nat) : Int × World :=
  let r := os.openRet w.trace path flags
  (r.ret, { w with errno := errnoAfter w.errno r.ret r.err,
                   trace := w.trace ++ [Event.openCall path flags r.ret] })

/-- System call `write(fd, data, count)`; `data` are the `count` bytes at the
pointer handed over. -/
def sys_write (os : OS) (w : World) (fd : Int) (data : List Nat) (count : Nat) : Int × World :=
  let r := os.writeRet w.trace fd data count
  (r.ret, { w with errno := errnoAfter w.errno r.ret r.err,
                   trace := w.trace ++ [Event.writeCall fd data count r.ret] })

/-- System call `lseek(fd, offset, whence)`. -/
def sys_lseek (os : OS) (w : World) (fd : Int) (offset : Int) (whence : Nat) : Int × World :=
  let r := os.lseekRet w.trace fd offset whence
  (r.ret, { w with errno := errnoAfter w.errno r.ret r.err,
                   trace := w.trace ++ [Event.lseekCall fd offset whence r.ret] })

/-- System call `close(fd)`; the source ignores its result. -/
def sys_close (os : OS) (w : World) (fd : Int) : World :=
  let r := os.closeRet w.trace fd
  { w with errno := errnoAfter w.errno r.ret r.err,
           trace := w.trace ++ [Event.closeCall fd] }

/-- System call `read(fd, buffer, count)`: the kernel copies at most `count`
of the offered bytes to the start of `buffer`; returns the call's value, the
buffer afterwards and the new state. -/
def sys_read (os : OS) (w : World) (fd : Int) (buffer : List Nat) (count : Nat) :
    Int × List Nat × World :=
  let r := os.readRet w.trace fd count
  let copied := r.data.take count
  (r.ret, copied ++ buffer.drop copied.length,
    { w with errno := errnoAfter w.errno r.ret r.err,
             trace := w.trace ++ [Event.readCall fd count r.ret] })

/-- The logging call `__android_log_print(prio, "LedController", fmt, ...)`. -/
def android_log (w : World) (prio : Nat) (fmt : String) : World :=
  { w with logs := w.logs ++ [{ prio := prio, fmt := fmt, code := w.errno }] }

/-! ## C and JNI helpers -/

/-- UTF-8 encoding of one code point. -/
def utf8Bytes (n : Nat) : List Nat :=
  if n < 128 then [n]
  else if n < 2048 then [192 + n / 64, 128 + n % 64]
  else if n < 65536 then [224 + n / 4096, 128 + n / 64 % 64, 128 + n % 64]
  else [240 + n / 262144, 128 + n / 4096 % 64, 128 + n / 64 % 64, 128 + n % 64]

/-- Bytes of a string literal (UTF-8), without terminator: `std::string::c_str`. -/
def c_str (s : String) : List Nat := s.data.flatMap (fun c => utf8Bytes c.toNat)

/-- Length of the C string starting at the pointer: bytes before the first NUL. -/
def strlen (p : List Nat) : Nat := (p.takeWhile (fun b => b != 0)).length

/-- A byte that encodes a character U+0001..U+007F on its own. -/
def oneByte (b : Nat) : Bool := decide (1 ≤ b) && decide (b ≤ 127)

/-- A continuation byte `10xxxxxx`. -/
def contByte (b : Nat) : Bool := decide (128 ≤ b) && decide (b ≤ 191)

/-- Two bytes `110xxxxx 10xxxxxx` encoding U+0080..U+07FF, or U+0000 as `c0 80`. -/
def twoBytes (b1 b2 : Nat) : Bool :=
  decide (192 ≤ b1) && decide (b1 ≤ 223) && contByte b2 &&
    (decide (194 ≤ b1) || (decide (b1 = 192) && decide (b2 = 128)))

/-- Three bytes `1110xxxx 10xxxxxx 10xxxxxx` encoding U+0800..U+FFFF
(surrogates included, as modified UTF-8 encodes each UTF-16 unit by itself). -/
def threeBytes (b1 b2 b3 : Nat) : Bool :=
  decide (224 ≤ b1) && decide (b1 ≤ 239) && contByte b2 && contByte b3 &&
    (decide (225 ≤ b1) || decide (160 ≤ b2))

/-- Whether a byte sequence is the modified-UTF-8 encoding of a Java string:
a concatenation of one-, two- and three-byte forms, each the shortest form of
its character.  No NUL, no byte `f0`..`ff`, no stray continuation byte. -/
def wellFormedMUTF8 : List Nat → Bool
  | [] => true
  | [b1] => oneByte b1
  | [b1, b2] => (oneByte b1 && oneByte b2) || twoBytes b1 b2
  | b1 :: b2 :: b3 :: rest =>
    (oneByte b1 && wellFormedMUTF8 (b2 :: b3 :: rest)) ||
    (twoBytes b1 b2 && wellFormedMUTF8 (b3 :: rest)) ||
    (threeBytes b1 b2 b3 && wellFormedMUTF8 rest)

/-- What `NewStringUTF` hands back: the Java string with the given
modified-UTF-8 encoding, or nothing that JNI specifies. -/
inductive JString where
  | text (mutf8 : List Nat)
  | unspecified
  deriving DecidableEq, Repr

/-- JNI `NewStringUTF(p)`: the argument is the C string at `p`, the bytes
before the first NUL; when these are well-formed modified UTF-8 the result is
the Java string they encode, otherwise the result is not specified. -/
def NewStringUTF (p : List Nat) : JString :=
  if wellFormedMUTF8 (p.takeWhile (fun b => b != 0)) then
    JString.text (p.takeWhile (fun b => b != 0))
  else
    JString.unspecified

/-- Conversion `static_cast<jint>(x)` of an `ssize_t`: 32-bit two's complement
(the identity on every value of a 32-bit `ssize_t`). -/
def toJint (x : Int) : Int := (x + 2147483648) % 4294967296 - 2147483648

/-! ## The source -/

/-- Source `ensure_fd`: reuse the cached descriptor or open the device and
cache whatever `open` returned. -/
def ensure_fd (os : OS) (w : World) : Int × World :=
  if w.led_fd ≥ 0 then
    (w.led_fd, w)
  else
    let r := sys_open os w DEVICE_PATH OPEN_FLAGS
    (r.1, { r.2 with led_fd := r.1 })

/-- Source `fallback_state`. -/
def fallback_state : String := "unknown 0 0 0"

/-- Source `Java_com_kieran_ledcontroller_NativeLib_nativeWriteImpl`.
`cmd` is what `GetStringUTFChars` yields: `none` for `nullptr`, else the
bytes of the command. -/
def Java_com_kieran_ledcontroller_NativeLib_nativeWriteImpl
    (os : OS) (cmd : Option (List Nat)) (w : World) : Int × World :=
  match cmd with
  | none => (-EINVAL, w)
  | some command_chars =>
    let r := ensure_fd os w
    let fd := r.1
    if fd < 0 then
      let w1 := android_log r.2 ANDROID_LOG_ERROR "Failed to open %s: %s"
      (-w1.errno, w1)
    else
      let n := strlen command_chars
      let wr := sys_write os r.2 fd (command_chars.take n) n
      let written := wr.1
      let w2 := if written < 0 then android_log wr.2 ANDROID_LOG_ERROR "Write failed: %s" else wr.2
      (toJint written, w2)

/-- The array `char buffer[BUFFER_SIZE] = {0};`. -/
def zeroBuffer : List Nat := List.replicate BUFFER_SIZE 0

/-- The tail of `nativeReadImpl` from `char buffer[BUFFER_SIZE] = {0};` on. -/
def readTail (os : OS) (w : World) (fd : Int) : Option JString × World :=
  let buffer0 := zeroBuffer
  let rd := sys_read os w fd buffer0 (BUFFER_SIZE - 1)
  let bytes_read := rd.1
  let buffer := rd.2.1
  if bytes_read ≤ 0 then
    let w1 := android_log rd.2.2 ANDROID_LOG_ERROR "Read failed (%zd): %s"
    (some (NewStringUTF (c_str fallback_state)), w1)
  else if bytes_read.toNat < BUFFER_SIZE then
    (some (NewStringUTF (buffer.set bytes_read.toNat 0)), rd.2.2)
  else
    (none, rd.2.2)

/-- Source `Java_com_kieran_ledcontroller_NativeLib_nativeReadImpl`. -/
def Java_com_kieran_ledcontroller_NativeLib_nativeReadImpl
    (os : OS) (w : World) : Option JString × World :=
  let r := ensure_fd os w
  let fd := r.1
  if fd < 0 then
    let w1 := android_log r.2 ANDROID_LOG_ERROR "Failed to open %s: %s"
    (some (NewStringUTF (c_str fallback_state)), w1)
  else
    let sk := sys_lseek os r.2 fd 0 SEEK_SET
    if sk.1 < 0 then
      let w1 := android_log sk.2 ANDROID_LOG_WARN "Seek on %s failed: %s, reopening"
      let w2 := sys_close os w1 fd
      let w3 := { w2 with led_fd := -1 }
      let r2 := ensure_fd os w3
      let fd2 := r2.1
      if fd2 < 0 then
        let w4 := android_log r2.2 ANDROID_LOG_ERROR "Reopen after seek failure failed: %s"
        (some (NewStringUTF (c_str fallback_state)), w4)
      else
        readTail os r2.2 fd2
    else
      readTail os sk.2 fd

/-- State in which `nativeReadImpl` calls `ensure_fd` again after the
reposition of descriptor `fd` failed in state `w1`: warning logged, `fd`
closed, `led_fd = -1`. -/
def afterSeekFailure (os : OS) (w1 : World) (fd : Int) : World :=
  { sys_close os
      (android_log (sys_lseek os w1 fd 0 SEEK_SET).2 ANDROID_LOG_WARN
        "Seek on %s failed: %s, reopening") fd
    with led_fd := -1 }

/-! ## Sequences of calls and observations on the record of system calls -/

/-- A call made by the Java side. -/
inductive Call where
  | send (cmd : Option (List Nat))
  | read_status
  deriving DecidableEq, Repr

/-- State after one call. -/
def step (os : OS) (w : World) : Call → World
  | Call.send cmd => (Java_com_kieran_ledcontroller_NativeLib_nativeWriteImpl os cmd w).2
  | Call.read_status => (Java_com_kieran_ledcontroller_NativeLib_nativeReadImpl os w).2

/-- State after a sequence of calls. -/
def run (os : OS) (calls : List Call) (w : World) : World := calls.foldl (step os) w

/-- System calls issued between state `w` and the later state `w2`. -/
def issued (w w2 : World) : List Event := w2.trace.drop w.trace.length

/-- Effect of one system call on the descriptors the process holds open. -/
def liveStep (live : List Int) : Event → List Int
  | Event.openCall _ _ ret => if 0 ≤ ret then live ++ [ret] else live
  | Event.closeCall fd => live.erase fd
  | _ => live

/-- Descriptors opened and not yet closed, given the record of system calls
of a process that started with none. -/
def liveFds (t : List Event) : List Int := t.foldl liveStep []

/-- Number of `open` calls in a record. -/
def countOpens (t : List Event) : Nat :=
  t.countP (fun e => match e with | Event.openCall _ _ _ => true | _ => false)

/-- Value returned by the first `open` call of a record, if there is one. -/
def firstOpen : List Event → Option Int
  | [] => none
  | Event.openCall _ _ ret :: _ => some ret
  | _ :: rest => firstOpen rest

/-- Whether some `lseek` of the record failed. -/
def seekFailed (t : List Event) : Bool :=
  t.any (fun e => match e with | Event.lseekCall _ _ _ ret => decide (ret < 0) | _ => false)

/-- On a record read newest first: every `close` comes directly after a
failed `lseek(fd, 0, SEEK_SET)` on the same descriptor. -/
def closesJustifiedRev : List Event → Bool
  | [] => true
  | Event.closeCall fd :: rest =>
    (match rest with
     | Event.lseekCall fd2 off wh ret :: _ =>
       decide (fd2 = fd) && decide (off = 0) && decide (wh = SEEK_SET) && decide (ret < 0)
     | _ => false) && closesJustifiedRev rest
  | _ :: rest => closesJustifiedRev rest

/-- Every `close` of the record directly follows a failed reposition of the
same descriptor to offset 0. -/
def closesJustified (t : List Event) : Bool := closesJustifiedRev t.reverse

/-- Invariant behind handle reuse: either nothing was opened yet and the
handle is at its initial value, or exactly one open was issued, it succeeded
and its descriptor is the cached one, or the record has left the scenario (its
first open failed or some reposition failed). -/
def reuseInv (w : World) : Prop :=
  (countOpens w.trace = 0 ∧ w.led_fd = -1) ∨
  (countOpens w.trace = 1 ∧ 0 ≤ w.led_fd ∧ firstOpen w.trace = some w.led_fd) ∨
  ((∃ r, firstOpen w.trace = some r ∧ r < 0) ∨ seekFailed w.trace = true)

/-! ## Concrete kernels used to exercise the theorems -/

/-- Kernel without the device node: `open` fails with `ENOENT` (2), every
other call fails with `EBADF` (9). -/
def osAbsent : OS where
  openRet := fun _ _ _ => ⟨-1, 2⟩
  writeRet := fun _ _ _ _ => ⟨-1, 9⟩
  lseekRet := fun _ _ _ _ => ⟨-1, 9⟩
  closeRet := fun _ _ => ⟨-1, 9⟩
  readRet := fun _ _ _ => ⟨-1, [], 9⟩

/-- Kernel with a working device: `open` yields descriptor 3, `write` takes
all bytes up to `MAX_RW_COUNT`, `lseek` succeeds and `read` delivers
`status`, cut to the requested count. -/
def osDevice (status : List Nat) : OS where
  openRet := fun _ _ _ => ⟨3, 0⟩
  writeRet := fun _ _ _ count => ⟨min count MAX_RW_COUNT, 0⟩
  lseekRet := fun _ _ _ _ => ⟨0, 0⟩
  closeRet := fun _ _ => ⟨0, 0⟩
  readRet := fun _ _ count => ⟨(status.take count).length, status.take count, 0⟩

/-- Kernel whose `read` fails with `EIO` (5) after the driver has already
put bytes into the user buffer; everything else works. -/
def osReadError : OS where
  openRet := fun _ _ _ => ⟨3, 0⟩
  writeRet := fun _ _ _ count => ⟨min count MAX_RW_COUNT, 0⟩
  lseekRet := fun _ _ _ _ => ⟨0, 0⟩
  closeRet := fun _ _ => ⟨0, 0⟩
  readRet := fun _ _ _ => ⟨-1, [111, 110], 5⟩

/-- Kernel on which the cached descriptor has gone stale: `lseek` fails with
`ESPIPE` (29), a fresh `open` yields descriptor 4 and `read` delivers
`status`, cut to the requested count. -/
def osStaleHandle (status : List Nat) : OS where
  openRet := fun _ _ _ => ⟨4, 0⟩
  writeRet := fun _ _ _ count => ⟨min count MAX_RW_COUNT, 0⟩
  lseekRet := fun _ _ _ _ => ⟨-1, 29⟩
  closeRet := fun _ _ => ⟨0, 0⟩
  readRet := fun _ _ count => ⟨(status.take count).length, status.take count, 0⟩

/-- Kernel whose driver copies the whole of `status` to the user buffer but
reports only `n` bytes read. -/
def osShortCount (status : List Nat) (n : Int) : OS where
  openRet := fun _ _ _ => ⟨3, 0⟩
  writeRet := fun _ _ _ count => ⟨min count MAX_RW_COUNT, 0⟩
  lseekRet := fun _ _ _ _ => ⟨0, 0⟩
  closeRet := fun _ _ => ⟨0, 0⟩
  readRet := fun _ _ count => ⟨n, status.take count, 0⟩

/-- State with the device already open on descriptor 3. -/
def World.opened : World :=
  { led_fd := 3, errno := 0, trace := [Event.openCall DEVICE_PATH OPEN_FLAGS 3], logs := [] }

/-- A session of four calls: ON, status, OFF, status. -/
def sampleSession : List Call :=
  [Call.send (some (c_str "ON")), Call.read_status, Call.send (some (c_str "OFF")),
    Call.read_status]

/-! ## Basic facts -/

theorem fallback_text :
    NewStringUTF (c_str fallback_state) = JString.text (c_str "unknown 0 0 0") := by
  decide

theorem ensure_fd_valid (os : OS) (w : World) (h : 0 ≤ w.led_fd) :
    ensure_fd os w = (w.led_fd, w) := by
  simp [ensure_fd, h]

theorem ensure_fd_unopened (os : OS) (w : World) (h : w.led_fd < 0) :
    ensure_fd os w =
      ((os.openRet w.trace DEVICE_PATH OPEN_FLAGS).ret,
        { led_fd := (os.openRet w.trace DEVICE_PATH OPEN_FLAGS).ret,
          errno := errnoAfter w.errno (os.openRet w.trace DEVICE_PATH OPEN_FLAGS).ret
            (os.openRet w.trace DEVICE_PATH OPEN_FLAGS).err,
          trace := w.trace ++
            [Event.openCall DEVICE_PATH OPEN_FLAGS (os.openRet w.trace DEVICE_PATH OPEN_FLAGS).ret],
          logs := w.logs }) := by
  have h2 : ¬ (0 ≤ w.led_fd) := by omega
  simp [ensure_fd, sys_open, h2]

theorem issued_append (w w2 : World) (seg : List Event) (h : w2.trace = w.trace ++ seg) :
    issued w w2 = seg := by
  simp [issued, h]

theorem read_count : BUFFER_SIZE - 1 = 255 := rfl

theorem readTail_trace (os : OS) (w : World) (fd : Int) :
    (readTail os w fd).2.trace
      = w.trace ++ [Event.readCall fd 255 (os.readRet w.trace fd 255).ret] := by
  simp only [readTail, sys_read, android_log, read_count]
  split
  · rfl
  · split <;> rfl

theorem readTail_led_fd (os : OS) (w : World) (fd : Int) :
    (readTail os w fd).2.led_fd = w.led_fd := by
  simp only [readTail, sys_read, android_log, read_count]
  split
  · rfl
  · split <;> rfl

theorem readTail_nonpositive (os : OS) (w : World) (fd : Int)
    (h : (os.readRet w.trace fd 255).ret ≤ 0) :
    (readTail os w fd).1 = some (JString.text (c_str "unknown 0 0 0")) := by
  simp only [readTail, sys_read, read_count, h, if_true, fallback_text]

theorem readTail_in_bounds (os : OS) (w : World) (fd : Int)
    (h : (os.readRet w.trace fd 255).ret ≤ 255) :
    (readTail os w fd).1 ≠ none := by
  simp only [readTail, sys_read, android_log, read_count]
  split
  · simp
  · split
    · simp
    · rename_i h1 h2
      simp only [BUFFER_SIZE] at h2
      omega

theorem wellFormed_no_nul :
    ∀ l : List Nat, wellFormedMUTF8 l = true → ∀ b ∈ l, b ≠ 0 := by
  intro l
  induction l using wellFormedMUTF8.induct with
  | case1 => intro _ b hb; simp at hb
  | case2 b1 =>
    intro h b hb
    simp [wellFormedMUTF8, oneByte] at h hb
    omega
  | case3 b1 b2 =>
    intro h b hb
    simp [wellFormedMUTF8, oneByte, twoBytes, contByte] at h hb
    omega
  | case4 b1 b2 b3 rest ih1 ih2 ih3 =>
    intro h b hb
    simp only [wellFormedMUTF8, Bool.or_eq_true, Bool.and_eq_true] at h
    simp only [List.mem_cons] at hb
    rcases h with (⟨h1, h2⟩ | ⟨h1, h2⟩) | ⟨h1, h2⟩
    · rcases hb with hb | hb
      · simp [oneByte] at h1; omega
      · exact ih1 h2 b (by simpa using hb)
    · simp [twoBytes, contByte] at h1
      rcases hb with hb | hb | hb
      · omega
      · omega
      · exact ih2 h2 b (by simpa using hb)
    · simp [threeBytes, contByte] at h1
      rcases hb with hb | hb | hb | hb
      · omega
      · omega
      · omega
      · exact ih3 h2 b hb

/-- The C string in a buffer whose byte `n` was set to NUL and whose first
`n` bytes are not NUL is those `n` bytes. -/
theorem cstring_of_terminated_buffer :
    ∀ (L : List Nat) (n : Nat), n < L.length → (∀ b ∈ L.take n, b ≠ 0) →
      (L.set n 0).takeWhile (fun b => b != 0) = L.take n := by
  intro L
  induction L with
  | nil => intro n hn; simp at hn
  | cons a l ih =>
    intro n hn hnz
    cases n with
    | zero => simp
    | succ k =>
      have ha : a ≠ 0 := hnz a (by simp)
      have hl : ∀ b ∈ l.take k, b ≠ 0 := fun b hb => hnz b (by simp [hb])
      have hk : k < l.length := by simpa using hn
      rw [List.set_cons_succ, List.takeWhile_cons, List.take_succ_cons, ih k hk hl]
      simp [ha]

theorem readTail_bytes (os : OS) (w : World) (fd : Int) (n : Nat)
    (hret : (os.readRet w.trace fd 255).ret = n)
    (hpos : 1 ≤ n) (hmax : n ≤ 255)
    (hstored : n ≤ (os.readRet w.trace fd 255).data.length)
    (hwf : wellFormedMUTF8 ((os.readRet w.trace fd 255).data.take n) = true) :
    (readTail os w fd).1 = some (JString.text ((os.readRet w.trace fd 255).data.take n)) := by
  generalize hr : os.readRet w.trace fd 255 = r at *
  obtain ⟨ret, data, err⟩ := r
  simp only at hret hstored hwf
  subst hret
  have h1 : ¬ ((n : Int) ≤ 0) := by omega
  have h2 : (n : Int).toNat = n := by omega
  have h3 : n < BUFFER_SIZE := by simp only [BUFFER_SIZE]; omega
  have hlenB : n < (data.take 255 ++ zeroBuffer.drop (data.take 255).length).length := by
    simp only [List.length_append, List.length_take, List.length_drop, zeroBuffer,
      List.length_replicate, BUFFER_SIZE]
    omega
  have htake : (data.take 255 ++ zeroBuffer.drop (data.take 255).length).take n
      = data.take n := by
    rw [List.take_append_of_le_length (by simp only [List.length_take]; omega), List.take_take]
    congr 1
    omega
  have hc := cstring_of_terminated_buffer
    (data.take 255 ++ zeroBuffer.drop (data.take 255).length) n hlenB
    (by rw [htake]; exact wellFormed_no_nul _ hwf)
  rw [htake] at hc
  simp only [readTail, sys_read, read_count, hr, h1, h2, h3, if_true, if_false, NewStringUTF, hc,
    hwf]

/-- The zero-initialised buffer ends the text when the driver stores fewer
bytes than it reports: 2 bytes `on` stored, 5 reported, text "on". -/
theorem read_reports_more_than_stored :
    (Java_com_kieran_ledcontroller_NativeLib_nativeReadImpl (osShortCount (c_str "on") 5)
        World.init).1 = some (JString.text (c_str "on")) := by
  decide

theorem ensure_fd_trace (os : OS) (w : World) :
    (ensure_fd os w).2.trace = w.trace ++
      (if 0 ≤ w.led_fd then []
       else [Event.openCall DEVICE_PATH OPEN_FLAGS (os.openRet w.trace DEVICE_PATH OPEN_FLAGS).ret]) := by
  by_cases h : 0 ≤ w.led_fd
  · simp [ensure_fd, h]
  · simp [ensure_fd, sys_open, h]

theorem ensure_fd_led_fd (os : OS) (w : World) :
    (ensure_fd os w).2.led_fd = (ensure_fd os w).1 := by
  by_cases h : 0 ≤ w.led_fd
  · simp [ensure_fd, h]
  · simp [ensure_fd, sys_open, h]

theorem read_path_open_failed (os : OS) (w : World) (h : (ensure_fd os w).1 < 0) :
    Java_com_kieran_ledcontroller_NativeLib_nativeReadImpl os w
      = (some (NewStringUTF (c_str fallback_state)),
          android_log (ensure_fd os w).2 ANDROID_LOG_ERROR "Failed to open %s: %s") := by
  simp only [Java_com_kieran_ledcontroller_NativeLib_nativeReadImpl, h, if_true]

theorem read_path_seek_ok (os : OS) (w : World) (h : 0 ≤ (ensure_fd os w).1)
    (hs : 0 ≤ (os.lseekRet (ensure_fd os w).2.trace (ensure_fd os w).1 0 SEEK_SET).ret) :
    Java_com_kieran_ledcontroller_NativeLib_nativeReadImpl os w
      = readTail os (sys_lseek os (ensure_fd os w).2 (ensure_fd os w).1 0 SEEK_SET).2
          (ensure_fd os w).1 := by
  have h1 : ¬ ((ensure_fd os w).1 < 0) := by omega
  have h2 : ¬ ((sys_lseek os (ensure_fd os w).2 (ensure_fd os w).1 0 SEEK_SET).1 < 0) := by
    simp only [sys_lseek]; omega
  simp only [Java_com_kieran_ledcontroller_NativeLib_nativeReadImpl, h1, h2, if_false]

theorem read_path_seek_failed (os : OS) (w : World) (h : 0 ≤ (ensure_fd os w).1)
    (hs : (os.lseekRet (ensure_fd os w).2.trace (ensure_fd os w).1 0 SEEK_SET).ret < 0) :
    Java_com_kieran_ledcontroller_NativeLib_nativeReadImpl os w
      = (if (ensure_fd os (afterSeekFailure os (ensure_fd os w).2 (ensure_fd os w).1)).1 < 0 then
          (some (NewStringUTF (c_str fallback_state)),
            android_log (ensure_fd os (afterSeekFailure os (ensure_fd os w).2 (ensure_fd os w).1)).2
              ANDROID_LOG_ERROR "Reopen after seek failure failed: %s")
        else
          readTail os (ensure_fd os (afterSeekFailure os (ensure_fd os w).2 (ensure_fd os w).1)).2
            (ensure_fd os (afterSeekFailure os (ensure_fd os w).2 (ensure_fd os w).1)).1) := by
  have h1 : ¬ ((ensure_fd os w).1 < 0) := by omega
  have h2 : (sys_lseek os (ensure_fd os w).2 (ensure_fd os w).1 0 SEEK_SET).1 < 0 := by
    simp only [sys_lseek]; omega
  simp only [Java_com_kieran_ledcontroller_NativeLib_nativeReadImpl, h1, h2, if_false, if_true,
    afterSeekFailure]

theorem afterSeekFailure_trace (os : OS) (w1 : World) (fd : Int) :
    (afterSeekFailure os w1 fd).trace
      = w1.trace ++ [Event.lseekCall fd 0 SEEK_SET (os.lseekRet w1.trace fd 0 SEEK_SET).ret,
          Event.closeCall fd] := by
  simp [afterSeekFailure, sys_close, android_log, sys_lseek]

theorem afterSeekFailure_led_fd (os : OS) (w1 : World) (fd : Int) :
    (afterSeekFailure os w1 fd).led_fd = -1 := rfl

theorem sys_lseek_trace (os : OS) (w1 : World) (fd : Int) :
    (sys_lseek os w1 fd 0 SEEK_SET).2.trace
      = w1.trace ++ [Event.lseekCall fd 0 SEEK_SET (os.lseekRet w1.trace fd 0 SEEK_SET).ret] := rfl

theorem android_log_trace (w : World) (prio : Nat) (fmt : String) :
    (android_log w prio fmt).trace = w.trace := rfl

theorem not_read_of_mem_open (os : OS) (w : World) (fd : Int) (n : Nat) (r : Int) :
    Event.readCall fd n r ∉ (if 0 ≤ w.led_fd then []
       else [Event.openCall DEVICE_PATH OPEN_FLAGS (os.openRet w.trace DEVICE_PATH OPEN_FLAGS).ret]) := by
  split <;> simp

/-- Every `read` issued by `nativeReadImpl` is the one of `readTail`, with
count 255, and the call's result is the result of that `readTail`. -/
theorem read_event_origin (os : OS) (w : World) (fd : Int) (n : Nat) (r : Int)
    (hmem : Event.readCall fd n r ∈
      issued w (Java_com_kieran_ledcontroller_NativeLib_nativeReadImpl os w).2) :
    ∃ w1 : World, Java_com_kieran_ledcontroller_NativeLib_nativeReadImpl os w = readTail os w1 fd ∧
      n = 255 ∧ r = (os.readRet w1.trace fd 255).ret := by
  have hno := not_read_of_mem_open os w fd n r
  by_cases h : 0 ≤ (ensure_fd os w).1
  · by_cases hs : 0 ≤ (os.lseekRet (ensure_fd os w).2.trace (ensure_fd os w).1 0 SEEK_SET).ret
    · have e := read_path_seek_ok os w h hs
      rw [e] at hmem
      rw [issued, readTail_trace, sys_lseek_trace, ensure_fd_trace, List.append_assoc,
        List.append_assoc, List.drop_left] at hmem
      simp only [List.mem_append, List.mem_singleton, List.mem_cons, hno, false_or,
        Event.readCall.injEq, reduceCtorEq, List.not_mem_nil, or_false] at hmem
      obtain ⟨h1, h2, h3⟩ := hmem
      subst h1 h2
      exact ⟨_, e, rfl, by rw [h3, sys_lseek_trace, ensure_fd_trace]⟩
    · have hs2 : (os.lseekRet (ensure_fd os w).2.trace (ensure_fd os w).1 0 SEEK_SET).ret < 0 := by
        omega
      have e := read_path_seek_failed os w h hs2
      rw [e] at hmem
      have hl : ¬ (0 ≤ (afterSeekFailure os (ensure_fd os w).2 (ensure_fd os w).1).led_fd) := by
        rw [afterSeekFailure_led_fd]; omega
      split at hmem
      · rw [issued, android_log_trace, ensure_fd_trace, afterSeekFailure_trace, ensure_fd_trace,
          List.append_assoc, List.append_assoc, List.drop_left] at hmem
        simp only [List.mem_append, List.mem_singleton, List.mem_cons, hno, false_or, hl,
          if_false, reduceCtorEq, List.not_mem_nil, or_false] at hmem
      · rw [issued, readTail_trace, ensure_fd_trace, afterSeekFailure_trace, ensure_fd_trace,
          List.append_assoc, List.append_assoc, List.append_assoc, List.drop_left] at hmem
        simp only [List.mem_append, List.mem_singleton, List.mem_cons, hno, false_or, hl,
          if_false, Event.readCall.injEq, reduceCtorEq, List.not_mem_nil, or_false] at hmem
        obtain ⟨h1, h2, h3⟩ := hmem
        rename_i hre
        subst h1 h2
        rw [if_neg hre] at e
        exact ⟨_, e, rfl, by
          rw [h3, ensure_fd_trace, afterSeekFailure_trace, ensure_fd_trace, if_neg hl]⟩
  · have h1 : (ensure_fd os w).1 < 0 := by omega
    have e := read_path_open_failed os w h1
    rw [e] at hmem
    rw [issued, android_log_trace, ensure_fd_trace, List.drop_left] at hmem
    exact absurd hmem hno

theorem takeWhile_no_nul (C : List Nat) (h : ∀ b ∈ C, b ≠ 0) :
    C.takeWhile (fun b => b != 0) = C := by
  induction C with
  | nil => rfl
  | cons a l ih =>
    have ha : a ≠ 0 := h a (by simp)
    have hl : ∀ b ∈ l, b ≠ 0 := fun b hb => h b (by simp [hb])
    rw [List.takeWhile_cons, ih hl]
    simp [ha]

theorem strlen_no_nul (C : List Nat) (h : ∀ b ∈ C, b ≠ 0) : strlen C = C.length := by
  rw [strlen, takeWhile_no_nul C h]

theorem toJint_of_range (v : Int) (hlo : -2147483648 ≤ v) (hhi : v < 2147483648) :
    toJint v = v := by
  simp only [toJint]
  omega

theorem write_with_valid_handle (os : OS) (C : List Nat) (w : World)
    (hfd : 0 ≤ w.led_fd) (hvalid : ∀ b ∈ C, b ≠ 0) :
    (Java_com_kieran_ledcontroller_NativeLib_nativeWriteImpl os (some C) w).1
      = toJint (os.writeRet w.trace w.led_fd C C.length).ret ∧
    (Java_com_kieran_ledcontroller_NativeLib_nativeWriteImpl os (some C) w).2.trace
      = w.trace ++ [Event.writeCall w.led_fd C C.length
          (os.writeRet w.trace w.led_fd C C.length).ret] := by
  have e := ensure_fd_valid os w hfd
  have h1 : ¬ (w.led_fd < 0) := by omega
  have h2 := strlen_no_nul C hvalid
  have h3 : C.take C.length = C := List.take_length C
  constructor
  · simp only [Java_com_kieran_ledcontroller_NativeLib_nativeWriteImpl, e, h1, if_false, h2, h3,
      sys_write]
  · simp only [Java_com_kieran_ledcontroller_NativeLib_nativeWriteImpl, e, h1, if_false, h2, h3,
      sys_write]
    split <;> rfl

/-! ## Shape of the system calls issued by one call -/

theorem ensure_fd_shape (os : OS) (w : World) :
    ∃ pre, (ensure_fd os w).2.trace = w.trace ++ pre ∧
      (ensure_fd os w).2.led_fd = (ensure_fd os w).1 ∧
      ((0 ≤ w.led_fd ∧ (ensure_fd os w).1 = w.led_fd ∧ pre = []) ∨
       (w.led_fd < 0 ∧ pre = [Event.openCall DEVICE_PATH OPEN_FLAGS (ensure_fd os w).1])) := by
  by_cases h : 0 ≤ w.led_fd
  · refine ⟨[], ?_, ?_, Or.inl ⟨h, ?_, rfl⟩⟩ <;> simp [ensure_fd_valid os w h]
  · have h2 : w.led_fd < 0 := by omega
    refine ⟨[Event.openCall DEVICE_PATH OPEN_FLAGS (ensure_fd os w).1], ?_, ?_, Or.inr ⟨h2, rfl⟩⟩
      <;> simp [ensure_fd_unopened os w h2]

/-- The four ways `nativeReadImpl` can run, with the system calls of each and
the descriptor cached afterwards; `pre` is what the first `ensure_fd` issued
and `fd0` what it returned. -/
theorem read_shape (os : OS) (w out : World)
    (hout : out = (Java_com_kieran_ledcontroller_NativeLib_nativeReadImpl os w).2) :
    ∃ pre fd0,
      ((0 ≤ w.led_fd ∧ fd0 = w.led_fd ∧ pre = []) ∨
       (w.led_fd < 0 ∧ pre = [Event.openCall DEVICE_PATH OPEN_FLAGS fd0])) ∧
      ((fd0 < 0 ∧ out.trace = w.trace ++ pre ∧ out.led_fd = fd0) ∨
       (0 ≤ fd0 ∧ ∃ s r, 0 ≤ s ∧ out.led_fd = fd0 ∧
          out.trace = w.trace ++ pre ++
            [Event.lseekCall fd0 0 SEEK_SET s, Event.readCall fd0 255 r]) ∨
       (0 ≤ fd0 ∧ ∃ s op, s < 0 ∧ op < 0 ∧ out.led_fd = op ∧
          out.trace = w.trace ++ pre ++
            [Event.lseekCall fd0 0 SEEK_SET s, Event.closeCall fd0,
              Event.openCall DEVICE_PATH OPEN_FLAGS op]) ∨
       (0 ≤ fd0 ∧ ∃ s op r, s < 0 ∧ 0 ≤ op ∧ out.led_fd = op ∧
          out.trace = w.trace ++ pre ++
            [Event.lseekCall fd0 0 SEEK_SET s, Event.closeCall fd0,
              Event.openCall DEVICE_PATH OPEN_FLAGS op, Event.readCall op 255 r])) := by
  obtain ⟨pre, htr, hled, hpre⟩ := ensure_fd_shape os w
  refine ⟨pre, (ensure_fd os w).1, hpre, ?_⟩
  subst hout
  by_cases h : 0 ≤ (ensure_fd os w).1
  · by_cases hs : 0 ≤ (os.lseekRet (ensure_fd os w).2.trace (ensure_fd os w).1 0 SEEK_SET).ret
    · have e := read_path_seek_ok os w h hs
      have h1 : (Java_com_kieran_ledcontroller_NativeLib_nativeReadImpl os w).2.led_fd
          = (ensure_fd os w).1 := by
        rw [e, readTail_led_fd]; exact hled
      have h2 := readTail_trace os
        (sys_lseek os (ensure_fd os w).2 (ensure_fd os w).1 0 SEEK_SET).2 (ensure_fd os w).1
      rw [← e, sys_lseek_trace] at h2
      generalize (os.readRet _ (ensure_fd os w).1 255).ret = r at h2
      rw [htr] at h2 hs
      exact Or.inr (Or.inl ⟨h, _, r, hs, h1, by rw [h2]; simp only [List.append_assoc,
        List.singleton_append]⟩)
    · have hs2 : (os.lseekRet (ensure_fd os w).2.trace (ensure_fd os w).1 0 SEEK_SET).ret < 0 := by
        omega
      have e := read_path_seek_failed os w h hs2
      have hl : (afterSeekFailure os (ensure_fd os w).2 (ensure_fd os w).1).led_fd < 0 := by
        rw [afterSeekFailure_led_fd]; omega
      obtain ⟨pre2, htr2, hled2, hpre2⟩ :=
        ensure_fd_shape os (afterSeekFailure os (ensure_fd os w).2 (ensure_fd os w).1)
      rcases hpre2 with ⟨hbad, _⟩ | ⟨_, hpre2⟩
      · omega
      subst hpre2
      rw [afterSeekFailure_trace] at htr2
      generalize ensure_fd os (afterSeekFailure os (ensure_fd os w).2 (ensure_fd os w).1) = q
        at e htr2 hled2
      rw [htr] at htr2 hs2
      by_cases hre : q.1 < 0
      · rw [if_pos hre] at e
        refine Or.inr (Or.inr (Or.inl ⟨h, _, q.1, hs2, hre, ?_, ?_⟩))
        · rw [e]; exact hled2
        · rw [e, android_log_trace, htr2]
          simp only [List.append_assoc, List.singleton_append, List.cons_append, List.nil_append]
      · rw [if_neg hre] at e
        have h2 := readTail_trace os q.2 q.1
        rw [← e] at h2
        generalize (os.readRet q.2.trace q.1 255).ret = r at h2
        refine Or.inr (Or.inr (Or.inr ⟨h, _, q.1, r, hs2, by omega, ?_, ?_⟩))
        · rw [e, readTail_led_fd]; exact hled2
        · rw [h2, htr2]
          simp only [List.append_assoc, List.singleton_append, List.cons_append, List.nil_append]
  · have h1 : (ensure_fd os w).1 < 0 := by omega
    refine Or.inl ⟨h1, ?_, ?_⟩
    · rw [read_path_open_failed os w h1, android_log_trace, htr]
    · rw [read_path_open_failed os w h1]
      exact hled

/-- The ways `nativeWriteImpl` can run on a marshalled command. -/
theorem send_shape (os : OS) (C : List Nat) (w out : World)
    (hout : out = (Java_com_kieran_ledcontroller_NativeLib_nativeWriteImpl os (some C) w).2) :
    ∃ pre fd0,
      ((0 ≤ w.led_fd ∧ fd0 = w.led_fd ∧ pre = []) ∨
       (w.led_fd < 0 ∧ pre = [Event.openCall DEVICE_PATH OPEN_FLAGS fd0])) ∧
      out.led_fd = fd0 ∧
      ((fd0 < 0 ∧ out.trace = w.trace ++ pre) ∨
       (0 ≤ fd0 ∧ ∃ data n r, out.trace = w.trace ++ pre ++ [Event.writeCall fd0 data n r])) := by
  obtain ⟨pre, htr, hled, hpre⟩ := ensure_fd_shape os w
  refine ⟨pre, (ensure_fd os w).1, hpre, ?_⟩
  subst hout
  by_cases h : (ensure_fd os w).1 < 0
  · simp only [Java_com_kieran_ledcontroller_NativeLib_nativeWriteImpl, h, if_true]
    exact ⟨hled, Or.inl ⟨trivial, htr⟩⟩
  · simp only [Java_com_kieran_ledcontroller_NativeLib_nativeWriteImpl, h, if_false]
    constructor
    · split <;> exact hled
    · refine Or.inr ⟨by omega, (C.take (strlen C)), strlen C,
        (os.writeRet (ensure_fd os w).2.trace (ensure_fd os w).1 (C.take (strlen C))
          (strlen C)).ret, ?_⟩
      split
      · rw [android_log_trace]
        simp only [sys_write, htr]
      · simp only [sys_write, htr]

/-! ## The descriptor invariant -/

theorem liveFds_append (t seg : List Event) :
    liveFds (t ++ seg) = seg.foldl liveStep (liveFds t) := by
  simp [liveFds, List.foldl_append]

/-- Invariant of the channel: the descriptors held open are exactly the cached
one when it is valid and none otherwise, and every `close` so far directly
followed a failed reposition of the descriptor closed. -/
theorem handle_invariant_read (os : OS) (w : World)
    (hlive : liveFds w.trace = if 0 ≤ w.led_fd then [w.led_fd] else [])
    (hclose : closesJustified w.trace = true) :
    liveFds (Java_com_kieran_ledcontroller_NativeLib_nativeReadImpl os w).2.trace
      = (if 0 ≤ (Java_com_kieran_ledcontroller_NativeLib_nativeReadImpl os w).2.led_fd
          then [(Java_com_kieran_ledcontroller_NativeLib_nativeReadImpl os w).2.led_fd] else []) ∧
    closesJustified (Java_com_kieran_ledcontroller_NativeLib_nativeReadImpl os w).2.trace = true := by
  obtain ⟨pre, fd0, hpre, hpath⟩ := read_shape os w _ rfl
  simp only [closesJustified] at hclose ⊢
  rcases hpre with ⟨h0, hfd0, hp⟩ | ⟨h0, hp⟩
  · subst hp hfd0
    rw [if_pos h0] at hlive
    rcases hpath with ⟨h1, _, _⟩ | ⟨h1, s, r, hs, hl, ht⟩ | ⟨h1, s, op, hs, hop, hl, ht⟩ |
        ⟨h1, s, op, r, hs, hop, hl, ht⟩
    · omega
    · rw [ht, hl]
      simp [liveFds_append, hlive, liveStep, h1, closesJustifiedRev, hclose]
    · have hop2 : ¬ (0 ≤ op) := by omega
      rw [ht, hl]
      simp [liveFds_append, hlive, liveStep, hop2, closesJustifiedRev, hclose, hs]
    · rw [ht, hl]
      simp [liveFds_append, hlive, liveStep, hop, closesJustifiedRev, hclose, hs]
  · subst hp
    have h0n : ¬ (0 ≤ w.led_fd) := by omega
    rw [if_neg h0n] at hlive
    rcases hpath with ⟨h1, ht, hl⟩ | ⟨h1, s, r, hs, hl, ht⟩ | ⟨h1, s, op, hs, hop, hl, ht⟩ |
        ⟨h1, s, op, r, hs, hop, hl, ht⟩
    · have h1n : ¬ (0 ≤ fd0) := by omega
      rw [ht, hl]
      simp [liveFds_append, hlive, liveStep, h1n, closesJustifiedRev, hclose]
    · rw [ht, hl]
      simp [liveFds_append, hlive, liveStep, h1, closesJustifiedRev, hclose]
    · have hop2 : ¬ (0 ≤ op) := by omega
      rw [ht, hl]
      simp [liveFds_append, hlive, liveStep, h1, hop2, closesJustifiedRev, hclose, hs]
    · rw [ht, hl]
      simp [liveFds_append, hlive, liveStep, h1, hop, closesJustifiedRev, hclose, hs]

theorem handle_invariant_send (os : OS) (cmd : Option (List Nat)) (w : World)
    (hlive : liveFds w.trace = if 0 ≤ w.led_fd then [w.led_fd] else [])
    (hclose : closesJustified w.trace = true) :
    liveFds (Java_com_kieran_ledcontroller_NativeLib_nativeWriteImpl os cmd w).2.trace
      = (if 0 ≤ (Java_com_kieran_ledcontroller_NativeLib_nativeWriteImpl os cmd w).2.led_fd
          then [(Java_com_kieran_ledcontroller_NativeLib_nativeWriteImpl os cmd w).2.led_fd]
          else []) ∧
    closesJustified (Java_com_kieran_ledcontroller_NativeLib_nativeWriteImpl os cmd w).2.trace
      = true := by
  cases cmd with
  | none => exact ⟨hlive, hclose⟩
  | some C =>
    obtain ⟨pre, fd0, hpre, hl, hpath⟩ := send_shape os C w _ rfl
    simp only [closesJustified] at hclose ⊢
    rcases hpre with ⟨h0, hfd0, hp⟩ | ⟨h0, hp⟩
    · subst hp hfd0
      rw [if_pos h0] at hlive
      rcases hpath with ⟨h1, _⟩ | ⟨h1, data, n, r, ht⟩
      · omega
      · rw [ht, hl]
        simp [liveFds_append, hlive, liveStep, h1, closesJustifiedRev, hclose]
    · subst hp
      have h0n : ¬ (0 ≤ w.led_fd) := by omega
      rw [if_neg h0n] at hlive
      rcases hpath with ⟨h1, ht⟩ | ⟨h1, data, n, r, ht⟩
      · have h1n : ¬ (0 ≤ fd0) := by omega
        rw [ht, hl]
        simp [liveFds_append, hlive, liveStep, h1n, closesJustifiedRev, hclose]
      · rw [ht, hl]
        simp [liveFds_append, hlive, liveStep, h1, closesJustifiedRev, hclose]

theorem handle_invariant_run (os : OS) (calls : List Call) :
    ∀ w : World, liveFds w.trace = (if 0 ≤ w.led_fd then [w.led_fd] else []) →
      closesJustified w.trace = true →
      liveFds (run os calls w).trace
        = (if 0 ≤ (run os calls w).led_fd then [(run os calls w).led_fd] else []) ∧
      closesJustified (run os calls w).trace = true := by
  induction calls with
  | nil => intro w h1 h2; exact ⟨h1, h2⟩
  | cons c cs ih =>
    intro w h1 h2
    have hstep : liveFds (step os w c).trace
        = (if 0 ≤ (step os w c).led_fd then [(step os w c).led_fd] else []) ∧
        closesJustified (step os w c).trace = true := by
      cases c with
      | send cmd => exact handle_invariant_send os cmd w h1 h2
      | read_status => exact handle_invariant_read os w h1 h2
    exact ih (step os w c) hstep.1 hstep.2

theorem send_issues_no_close (os : OS) (cmd : Option (List Nat)) (w : World) (fd : Int) :
    Event.closeCall fd ∉
      issued w (Java_com_kieran_ledcontroller_NativeLib_nativeWriteImpl os cmd w).2 := by
  cases cmd with
  | none => simp [Java_com_kieran_ledcontroller_NativeLib_nativeWriteImpl, issued]
  | some C =>
    obtain ⟨pre, fd0, hpre, _, hpath⟩ := send_shape os C w _ rfl
    rcases hpre with ⟨_, _, hp⟩ | ⟨_, hp⟩ <;> subst hp <;>
      rcases hpath with ⟨_, ht⟩ | ⟨_, data, n, r, ht⟩ <;>
      simp [issued, ht]

/-! ## Handle reuse along a sequence of calls -/

theorem firstOpen_append_of_some (t seg : List Event) (r : Int) (h : firstOpen t = some r) :
    firstOpen (t ++ seg) = some r := by
  induction t with
  | nil => simp [firstOpen] at h
  | cons e l ih =>
    cases e <;> simp only [firstOpen, List.cons_append] at h ⊢ <;> first | exact h | exact ih h

theorem firstOpen_append_of_no_open (t seg : List Event) (h : countOpens t = 0) :
    firstOpen (t ++ seg) = firstOpen seg := by
  induction t with
  | nil => rfl
  | cons e l ih =>
    cases e <;> simp [countOpens, List.countP_cons] at h <;>
      simp only [firstOpen, List.cons_append] <;> exact ih (by simpa [countOpens] using h)

theorem countOpens_append (t seg : List Event) :
    countOpens (t ++ seg) = countOpens t + countOpens seg := by
  simp [countOpens, List.countP_append]

theorem seekFailed_append (t seg : List Event) :
    seekFailed (t ++ seg) = (seekFailed t || seekFailed seg) := by
  simp [seekFailed, List.any_append]

/-- A record is off the reuse scenario when its first open failed or some
reposition failed. -/
theorem offScenario_append (t seg : List Event)
    (h : (∃ r, firstOpen t = some r ∧ r < 0) ∨ seekFailed t = true) :
    (∃ r, firstOpen (t ++ seg) = some r ∧ r < 0) ∨ seekFailed (t ++ seg) = true := by
  rcases h with ⟨r, h1, h2⟩ | h
  · exact Or.inl ⟨r, firstOpen_append_of_some t seg r h1, h2⟩
  · exact Or.inr (by rw [seekFailed_append, h]; rfl)

theorem step_extends (os : OS) (w : World) (c : Call) :
    ∃ seg, (step os w c).trace = w.trace ++ seg := by
  cases c with
  | send cmd =>
    cases cmd with
    | none => exact ⟨[], by simp [step, Java_com_kieran_ledcontroller_NativeLib_nativeWriteImpl]⟩
    | some C =>
      obtain ⟨pre, fd0, _, _, hpath⟩ := send_shape os C w _ rfl
      rcases hpath with ⟨_, ht⟩ | ⟨_, data, n, r, ht⟩
      · exact ⟨_, ht⟩
      · exact ⟨_, by rw [step, ht, List.append_assoc]⟩
  | read_status =>
    obtain ⟨pre, fd0, _, hpath⟩ := read_shape os w _ rfl
    rcases hpath with ⟨_, ht, _⟩ | ⟨_, s, r, _, _, ht⟩ | ⟨_, s, op, _, _, _, ht⟩ |
        ⟨_, s, op, r, _, _, _, ht⟩
    · exact ⟨_, ht⟩
    · exact ⟨_, by rw [step, ht, List.append_assoc]⟩
    · exact ⟨_, by rw [step, ht, List.append_assoc]⟩
    · exact ⟨_, by rw [step, ht, List.append_assoc]⟩

theorem run_extends (os : OS) (calls : List Call) :
    ∀ w : World, ∃ seg, (run os calls w).trace = w.trace ++ seg := by
  induction calls with
  | nil => intro w; exact ⟨[], by simp [run]⟩
  | cons c cs ih =>
    intro w
    obtain ⟨seg1, h1⟩ := step_extends os w c
    obtain ⟨seg2, h2⟩ := ih (step os w c)
    refine ⟨seg1 ++ seg2, ?_⟩
    show (run os cs (step os w c)).trace = _
    rw [h2, h1, List.append_assoc]

theorem run_take_drop (os : OS) (calls : List Call) (k : Nat) (w : World) :
    run os calls w = run os (calls.drop k) (run os (calls.take k) w) := by
  simp only [run]
  rw [← List.foldl_append, List.take_append_drop]

theorem countOpens_zero_firstOpen (t : List Event) (h : countOpens t = 0) :
    firstOpen t = none := by
  have := firstOpen_append_of_no_open t [] h
  simpa [firstOpen] using this

theorem reuseInv_step (os : OS) (w : World) (c : Call) (h : reuseInv w) :
    reuseInv (step os w c) := by
  rcases h with ⟨hc, hl⟩ | ⟨hc, hl, hf⟩ | hbad
  · -- nothing opened yet
    have hneg : w.led_fd < 0 := by omega
    cases c with
    | send cmd =>
      cases cmd with
      | none => exact Or.inl ⟨hc, hl⟩
      | some C =>
        obtain ⟨pre, fd0, hpre, hled, hpath⟩ := send_shape os C w _ rfl
        rcases hpre with ⟨h0, _, _⟩ | ⟨_, hp⟩
        · omega
        subst hp
        rcases hpath with ⟨h1, ht⟩ | ⟨h1, data, n, r, ht⟩
        · refine Or.inr (Or.inr (Or.inl ⟨fd0, ?_, h1⟩))
          rw [step, ht, firstOpen_append_of_no_open _ _ hc]; rfl
        · refine Or.inr (Or.inl ⟨?_, ?_, ?_⟩)
          · rw [step, ht, countOpens_append, countOpens_append, hc]; rfl
          · rw [step, hled]; exact h1
          · rw [step, ht, hled, List.append_assoc, firstOpen_append_of_no_open _ _ hc]; rfl
    | read_status =>
      obtain ⟨pre, fd0, hpre, hpath⟩ := read_shape os w _ rfl
      rcases hpre with ⟨h0, _, _⟩ | ⟨_, hp⟩
      · omega
      subst hp
      rcases hpath with ⟨h1, ht, _⟩ | ⟨h1, s, r, hs, hled, ht⟩ | ⟨h1, s, op, hs, _, _, ht⟩ |
          ⟨h1, s, op, r, hs, _, _, ht⟩
      · refine Or.inr (Or.inr (Or.inl ⟨fd0, ?_, h1⟩))
        rw [step, ht, firstOpen_append_of_no_open _ _ hc]; rfl
      · refine Or.inr (Or.inl ⟨?_, ?_, ?_⟩)
        · rw [step, ht, countOpens_append, countOpens_append, hc]; rfl
        · rw [step, hled]; exact h1
        · rw [step, ht, hled, List.append_assoc, firstOpen_append_of_no_open _ _ hc]; rfl
      · refine Or.inr (Or.inr (Or.inr ?_))
        rw [step, ht, seekFailed_append]
        simp [seekFailed, hs]
      · refine Or.inr (Or.inr (Or.inr ?_))
        rw [step, ht, seekFailed_append]
        simp [seekFailed, hs]
  · -- one successful open, its descriptor cached
    have hnn : ¬ (w.led_fd < 0) := by omega
    cases c with
    | send cmd =>
      cases cmd with
      | none => exact Or.inr (Or.inl ⟨hc, hl, hf⟩)
      | some C =>
        obtain ⟨pre, fd0, hpre, hled, hpath⟩ := send_shape os C w _ rfl
        rcases hpre with ⟨_, hfd0, hp⟩ | ⟨h0, _⟩
        swap
        · omega
        subst hp hfd0
        rcases hpath with ⟨h1, _⟩ | ⟨h1, data, n, r, ht⟩
        · omega
        · refine Or.inr (Or.inl ⟨?_, ?_, ?_⟩)
          · rw [step, ht, countOpens_append, countOpens_append, hc]; rfl
          · rw [step, hled]; exact h1
          · rw [step, ht, hled, List.append_assoc, firstOpen_append_of_some _ _ _ hf]
    | read_status =>
      obtain ⟨pre, fd0, hpre, hpath⟩ := read_shape os w _ rfl
      rcases hpre with ⟨_, hfd0, hp⟩ | ⟨h0, _⟩
      swap
      · omega
      subst hp hfd0
      rcases hpath with ⟨h1, _, _⟩ | ⟨h1, s, r, hs, hled, ht⟩ | ⟨h1, s, op, hs, _, _, ht⟩ |
          ⟨h1, s, op, r, hs, _, _, ht⟩
      · omega
      · refine Or.inr (Or.inl ⟨?_, ?_, ?_⟩)
        · rw [step, ht, countOpens_append, countOpens_append, hc]; rfl
        · rw [step, hled]; exact h1
        · rw [step, ht, hled, List.append_assoc, firstOpen_append_of_some _ _ _ hf]
      · refine Or.inr (Or.inr (Or.inr ?_))
        rw [step, ht, seekFailed_append]
        simp [seekFailed, hs]
      · refine Or.inr (Or.inr (Or.inr ?_))
        rw [step, ht, seekFailed_append]
        simp [seekFailed, hs]
  · obtain ⟨seg, hseg⟩ := step_extends os w c
    refine Or.inr (Or.inr ?_)
    rw [hseg]
    exact offScenario_append _ _ hbad

theorem reuseInv_run (os : OS) (calls : List Call) :
    ∀ w : World, reuseInv w → reuseInv (run os calls w) := by
  induction calls with
  | nil => intro w h; exact h
  | cons c cs ih => intro w h; exact ih (step os w c) (reuseInv_step os w c h)

/-! ## Claims -/

/-- C8: when `GetStringUTFChars` yields null, `nativeWriteImpl` returns
`-EINVAL` (that is -22) and the state is untouched: no system call is issued
(no open, no write) and the cached descriptor is unchanged. -/
theorem C8_marshal_failure_returns_einval (os : OS) (w : World) :
    Java_com_kieran_ledcontroller_NativeLib_nativeWriteImpl os none w = (-EINVAL, w) ∧
    (Java_com_kieran_ledcontroller_NativeLib_nativeWriteImpl os none w).1 = -22 ∧
    issued w (Java_com_kieran_ledcontroller_NativeLib_nativeWriteImpl os none w).2 = [] ∧
    (Java_com_kieran_ledcontroller_NativeLib_nativeWriteImpl os none w).2.led_fd = w.led_fd := by
  simp [Java_com_kieran_ledcontroller_NativeLib_nativeWriteImpl, EINVAL, issued]

/-- C3: with the handle unopened and the open of the device path failing,
`nativeReadImpl` returns exactly the text "unknown 0 0 0", and the only system
call it issues is that one `open`: no reposition, no read, no close. -/
theorem C3_read_status_open_failure_fallback (os : OS) (w : World)
    (hfd : w.led_fd < 0)
    (hopen : (os.openRet w.trace DEVICE_PATH OPEN_FLAGS).ret < 0) :
    (Java_com_kieran_ledcontroller_NativeLib_nativeReadImpl os w).1
      = some (JString.text (c_str "unknown 0 0 0")) ∧
    issued w (Java_com_kieran_ledcontroller_NativeLib_nativeReadImpl os w).2
      = [Event.openCall DEVICE_PATH OPEN_FLAGS (os.openRet w.trace DEVICE_PATH OPEN_FLAGS).ret] := by
  have e := ensure_fd_unopened os w hfd
  constructor
  · simp [Java_com_kieran_ledcontroller_NativeLib_nativeReadImpl, e, hopen, fallback_text]
  · apply issued_append
    simp [Java_com_kieran_ledcontroller_NativeLib_nativeReadImpl, e, hopen, android_log]

/-- C3 at process start on a kernel without the device node. -/
theorem C3_read_status_open_failure_fallback_witness :
    (Java_com_kieran_ledcontroller_NativeLib_nativeReadImpl osAbsent World.init).1
      = some (JString.text (c_str "unknown 0 0 0")) ∧
    issued World.init (Java_com_kieran_ledcontroller_NativeLib_nativeReadImpl osAbsent World.init).2
      = [Event.openCall DEVICE_PATH OPEN_FLAGS
          (osAbsent.openRet World.init.trace DEVICE_PATH OPEN_FLAGS).ret] :=
  C3_read_status_open_failure_fallback osAbsent World.init (by decide) (by decide)

/-- C4: with the handle unopened and the open of the device path failing with
error code `e > 0`, `nativeWriteImpl` on any command text returns `-e`, a
negative value, and the only system call it issues is that `open`: no write. -/
theorem C4_send_open_failure_returns_negated_errno (os : OS) (C : List Nat) (w : World) (e : Int)
    (hfd : w.led_fd < 0)
    (hopen : (os.openRet w.trace DEVICE_PATH OPEN_FLAGS).ret < 0)
    (herr : (os.openRet w.trace DEVICE_PATH OPEN_FLAGS).err = e)
    (he : 0 < e) :
    (Java_com_kieran_ledcontroller_NativeLib_nativeWriteImpl os (some C) w).1 = -e ∧
    (Java_com_kieran_ledcontroller_NativeLib_nativeWriteImpl os (some C) w).1 < 0 ∧
    issued w (Java_com_kieran_ledcontroller_NativeLib_nativeWriteImpl os (some C) w).2
      = [Event.openCall DEVICE_PATH OPEN_FLAGS (os.openRet w.trace DEVICE_PATH OPEN_FLAGS).ret] := by
  have e1 := ensure_fd_unopened os w hfd
  have hv : (Java_com_kieran_ledcontroller_NativeLib_nativeWriteImpl os (some C) w).1 = -e := by
    simp [Java_com_kieran_ledcontroller_NativeLib_nativeWriteImpl, e1, hopen, android_log,
      errnoAfter, herr]
  refine ⟨hv, ?_, ?_⟩
  · rw [hv]; omega
  · apply issued_append
    simp [Java_com_kieran_ledcontroller_NativeLib_nativeWriteImpl, e1, hopen, android_log]

/-- C4 for the command "ON" at process start on a kernel without the device
node: `open` fails with `ENOENT` (2) and the result is -2. -/
theorem C4_send_open_failure_returns_negated_errno_witness :
    (Java_com_kieran_ledcontroller_NativeLib_nativeWriteImpl osAbsent (some (c_str "ON"))
      World.init).1 = -2 ∧
    (Java_com_kieran_ledcontroller_NativeLib_nativeWriteImpl osAbsent (some (c_str "ON"))
      World.init).1 < 0 ∧
    issued World.init (Java_com_kieran_ledcontroller_NativeLib_nativeWriteImpl osAbsent
      (some (c_str "ON")) World.init).2
      = [Event.openCall DEVICE_PATH OPEN_FLAGS
          (osAbsent.openRet World.init.trace DEVICE_PATH OPEN_FLAGS).ret] :=
  C4_send_open_failure_returns_negated_errno osAbsent (c_str "ON") World.init 2
    (by decide) (by decide) (by decide) (by decide)

/-- C5: whenever the device read issued by `nativeReadImpl` returns zero or a
negative count, the result is exactly the text "unknown 0 0 0", whatever the
driver put into the buffer.  This holds in every state, in particular with a
valid handle. -/
theorem C5_read_status_nonpositive_read_fallback (os : OS) (w : World)
    (fd : Int) (n : Nat) (r : Int)
    (hread : Event.readCall fd n r ∈
      issued w (Java_com_kieran_ledcontroller_NativeLib_nativeReadImpl os w).2)
    (hr : r ≤ 0) :
    (Java_com_kieran_ledcontroller_NativeLib_nativeReadImpl os w).1
      = some (JString.text (c_str "unknown 0 0 0")) := by
  obtain ⟨w1, e, _, hret⟩ := read_event_origin os w fd n r hread
  rw [e]
  exact readTail_nonpositive os w1 fd (by rw [← hret]; exact hr)

/-- C5 with a valid handle on a kernel whose `read` fails after bytes were
already put into the buffer. -/
theorem C5_read_status_nonpositive_read_fallback_witness :
    0 ≤ World.opened.led_fd ∧
    Event.readCall 3 255 (-1) ∈
      issued World.opened
        (Java_com_kieran_ledcontroller_NativeLib_nativeReadImpl osReadError World.opened).2 ∧
    (Java_com_kieran_ledcontroller_NativeLib_nativeReadImpl osReadError World.opened).1
      = some (JString.text (c_str "unknown 0 0 0")) :=
  ⟨by decide, by decide,
    C5_read_status_nonpositive_read_fallback osReadError World.opened 3 255 (-1)
      (by decide) (by decide)⟩

/-- C10: the buffer of `nativeReadImpl` has 256 bytes, all zero; every read it
issues asks for exactly 255 = BUFFER_SIZE - 1 bytes; and when the kernel
honours the contract that `read` returns at most the requested count, the call
never stores out of bounds (its result is defined) and every positive count
`r` it gets, the index of the terminator, satisfies 1 ≤ r ≤ 255 < 256. -/
theorem C10_read_buffer_bound (os : OS) (w : World) :
    (zeroBuffer.length = 256 ∧ ∀ b ∈ zeroBuffer, b = 0) ∧
    (∀ fd n r, Event.readCall fd n r ∈
        issued w (Java_com_kieran_ledcontroller_NativeLib_nativeReadImpl os w).2 →
      n = BUFFER_SIZE - 1 ∧ n = 255) ∧
    ((∀ t fd n, (os.readRet t fd n).ret ≤ n) →
      (Java_com_kieran_ledcontroller_NativeLib_nativeReadImpl os w).1 ≠ none ∧
      ∀ fd n r, Event.readCall fd n r ∈
          issued w (Java_com_kieran_ledcontroller_NativeLib_nativeReadImpl os w).2 →
        0 < r → 1 ≤ r ∧ r ≤ 255 ∧ r.toNat < BUFFER_SIZE) := by
  refine ⟨⟨by rw [zeroBuffer, List.length_replicate]; rfl, ?_⟩, ?_, ?_⟩
  · intro b hb
    exact List.eq_of_mem_replicate hb
  · intro fd n r hmem
    obtain ⟨w1, _, hn, _⟩ := read_event_origin os w fd n r hmem
    exact ⟨by rw [hn, read_count], hn⟩
  · intro hc
    constructor
    · by_cases h : 0 ≤ (ensure_fd os w).1
      · by_cases hs : 0 ≤ (os.lseekRet (ensure_fd os w).2.trace (ensure_fd os w).1 0 SEEK_SET).ret
        · rw [read_path_seek_ok os w h hs]
          exact readTail_in_bounds os _ _ (by exact_mod_cast hc _ _ 255)
        · rw [read_path_seek_failed os w h (by omega)]
          split
          · simp
          · exact readTail_in_bounds os _ _ (by exact_mod_cast hc _ _ 255)
      · rw [read_path_open_failed os w (by omega)]
        simp
    · intro fd n r hmem hpos
      obtain ⟨w1, _, _, hret⟩ := read_event_origin os w fd n r hmem
      have := hc w1.trace fd 255
      rw [← hret] at this
      simp only [BUFFER_SIZE]
      omega

/-- The kernel `osDevice` honours the contract of `read`. -/
theorem osDevice_read_contract (status : List Nat) (t : List Event) (fd : Int) (n : Nat) :
    ((osDevice status).readRet t fd n).ret ≤ n := by
  simp only [osDevice, List.length_take]
  omega

/-- C10 at process start on a kernel whose device reports `on 1 2 3`. -/
theorem C10_read_buffer_bound_witness :
    (Java_com_kieran_ledcontroller_NativeLib_nativeReadImpl (osDevice (c_str "on 1 2 3"))
        World.init).1 ≠ none ∧
    ∀ fd n r, Event.readCall fd n r ∈
        issued World.init (Java_com_kieran_ledcontroller_NativeLib_nativeReadImpl
          (osDevice (c_str "on 1 2 3")) World.init).2 →
      0 < r → 1 ≤ r ∧ r ≤ 255 ∧ r.toNat < BUFFER_SIZE :=
  (C10_read_buffer_bound (osDevice (c_str "on 1 2 3")) World.init).2.2
    (osDevice_read_contract (c_str "on 1 2 3"))

/-- C1, refuted as stated: after a successful open and reposition the device
answers the read with the 3 bytes `o`, NUL, `n`; the text returned is the
single byte `o`, not those 3 bytes.  And when it answers with the single byte
`ff`, which no Java string contains, the result is not a text of that byte. -/
theorem C1_counterexample_embedded_nul :
    issued World.init
        (Java_com_kieran_ledcontroller_NativeLib_nativeReadImpl (osDevice [111, 0, 110])
          World.init).2
      = [Event.openCall DEVICE_PATH OPEN_FLAGS 3, Event.lseekCall 3 0 SEEK_SET 0,
          Event.readCall 3 255 3] ∧
    ((osDevice [111, 0, 110]).readRet
        [Event.openCall DEVICE_PATH OPEN_FLAGS 3, Event.lseekCall 3 0 SEEK_SET 0] 3 255).data
      = [111, 0, 110] ∧
    (Java_com_kieran_ledcontroller_NativeLib_nativeReadImpl (osDevice [111, 0, 110])
        World.init).1 = some (JString.text [111]) ∧
    (Java_com_kieran_ledcontroller_NativeLib_nativeReadImpl (osDevice [111, 0, 110])
        World.init).1 ≠ some (JString.text [111, 0, 110]) ∧
    issued World.init
        (Java_com_kieran_ledcontroller_NativeLib_nativeReadImpl (osDevice [255]) World.init).2
      = [Event.openCall DEVICE_PATH OPEN_FLAGS 3, Event.lseekCall 3 0 SEEK_SET 0,
          Event.readCall 3 255 1] ∧
    (Java_com_kieran_ledcontroller_NativeLib_nativeReadImpl (osDevice [255]) World.init).1
      = some JString.unspecified := by
  decide

/-- C1, amended: when the handle is valid or the open succeeds, the reposition
succeeds and the device read returns `n` with 1 ≤ n ≤ 255, the driver having
stored at least those `n` bytes, and the `n` bytes read are well-formed
modified UTF-8 (so none of them is NUL), `nativeReadImpl` returns the text
whose content is exactly those `n` bytes, in order, cut at `n` whatever follows
in the buffer, of length `n` ≤ 255. -/
theorem C1_read_status_returns_bytes_read (os : OS) (w : World) (n : Nat) (bytes : List Nat)
    (hopen : 0 ≤ (ensure_fd os w).1)
    (hseek : 0 ≤ (os.lseekRet (ensure_fd os w).2.trace (ensure_fd os w).1 0 SEEK_SET).ret)
    (hret : (os.readRet (sys_lseek os (ensure_fd os w).2 (ensure_fd os w).1 0 SEEK_SET).2.trace
      (ensure_fd os w).1 255).ret = n)
    (hstored : n ≤ (os.readRet
      (sys_lseek os (ensure_fd os w).2 (ensure_fd os w).1 0 SEEK_SET).2.trace
      (ensure_fd os w).1 255).data.length)
    (hbytes : (os.readRet (sys_lseek os (ensure_fd os w).2 (ensure_fd os w).1 0 SEEK_SET).2.trace
      (ensure_fd os w).1 255).data.take n = bytes)
    (hn1 : 1 ≤ n) (hn2 : n ≤ 255)
    (hwf : wellFormedMUTF8 bytes = true) :
    (Java_com_kieran_ledcontroller_NativeLib_nativeReadImpl os w).1
      = some (JString.text bytes) ∧
    bytes.length = n ∧ bytes.length ≤ 255 := by
  have hlen : bytes.length = n := by
    rw [← hbytes, List.length_take]
    omega
  refine ⟨?_, hlen, by omega⟩
  rw [read_path_seek_ok os w hopen hseek, ← hbytes]
  exact readTail_bytes os _ _ n hret hn1 hn2 hstored (by rw [hbytes]; exact hwf)

/-- C1 at process start: a device reporting the 8 bytes `on 1 2 3` gives
exactly "on 1 2 3"; a driver that stores those 8 bytes but reports 3 bytes
read gives exactly the 3 bytes `on `. -/
theorem C1_read_status_returns_bytes_read_witness :
    ((Java_com_kieran_ledcontroller_NativeLib_nativeReadImpl (osDevice (c_str "on 1 2 3"))
        World.init).1 = some (JString.text (c_str "on 1 2 3")) ∧
      (c_str "on 1 2 3").length = 8 ∧ (c_str "on 1 2 3").length ≤ 255) ∧
    ((Java_com_kieran_ledcontroller_NativeLib_nativeReadImpl
        (osShortCount (c_str "on 1 2 3") 3) World.init).1 = some (JString.text (c_str "on ")) ∧
      (c_str "on ").length = 3 ∧ (c_str "on ").length ≤ 255) :=
  ⟨C1_read_status_returns_bytes_read (osDevice (c_str "on 1 2 3")) World.init 8
      (c_str "on 1 2 3") (by decide) (by decide) (by decide) (by decide) (by decide) (by decide)
      (by decide) (by decide),
   C1_read_status_returns_bytes_read (osShortCount (c_str "on 1 2 3") 3) World.init 3
      (c_str "on ") (by decide) (by decide) (by decide) (by decide) (by decide) (by decide)
      (by decide) (by decide)⟩

/-- C2: for every valid command text `C` (modified UTF-8, hence without NUL),
when the handle is valid `nativeWriteImpl` issues exactly one system call, the
`write` of `C`'s bytes, and returns exactly the value `v` that call produced,
a Linux `write` producing -1 or a count of at most `MAX_RW_COUNT`; hence, when
that value is negative or a count not exceeding the requested length, the
result is either a non-negative byte count ≤ length(C) or a negative value. -/
theorem C2_send_returns_write_value (os : OS) (C : List Nat) (w : World) (v : Int)
    (hfd : 0 ≤ w.led_fd) (hvalid : ∀ b ∈ C, b ≠ 0)
    (hv : (os.writeRet w.trace w.led_fd C C.length).ret = v)
    (hlo : -1 ≤ v) (hhi : v ≤ MAX_RW_COUNT) :
    issued w (Java_com_kieran_ledcontroller_NativeLib_nativeWriteImpl os (some C) w).2
      = [Event.writeCall w.led_fd C C.length v] ∧
    (Java_com_kieran_ledcontroller_NativeLib_nativeWriteImpl os (some C) w).1 = v ∧
    ((v < 0 ∨ v ≤ C.length) →
      (0 ≤ (Java_com_kieran_ledcontroller_NativeLib_nativeWriteImpl os (some C) w).1 ∧
        (Java_com_kieran_ledcontroller_NativeLib_nativeWriteImpl os (some C) w).1 ≤ C.length) ∨
      (Java_com_kieran_ledcontroller_NativeLib_nativeWriteImpl os (some C) w).1 < 0) := by
  obtain ⟨h1, h2⟩ := write_with_valid_handle os C w hfd hvalid
  rw [hv] at h1 h2
  have hhi2 : v < 2147483648 := by
    simp only [MAX_RW_COUNT] at hhi
    omega
  rw [toJint_of_range v (by omega) hhi2] at h1
  refine ⟨issued_append w _ _ h2, h1, ?_⟩
  intro hc
  rw [h1]
  omega

/-- C2 on the command "OFF" with the device open on descriptor 3 and a
kernel that writes all 3 bytes: one `write`, result 3. -/
theorem C2_send_returns_write_value_witness :
    issued World.opened (Java_com_kieran_ledcontroller_NativeLib_nativeWriteImpl (osDevice [])
        (some (c_str "OFF")) World.opened).2
      = [Event.writeCall 3 (c_str "OFF") 3 3] ∧
    (Java_com_kieran_ledcontroller_NativeLib_nativeWriteImpl (osDevice []) (some (c_str "OFF"))
        World.opened).1 = 3 :=
  have h := C2_send_returns_write_value (osDevice []) (c_str "OFF") World.opened 3
    (by decide) (by decide) (by decide) (by decide) (by decide)
  ⟨h.1, h.2.1⟩

/-- C6, refuted as stated: with a valid handle whose reposition fails and a
reopen that succeeds, the read on the new descriptor returns the 4 bytes
`o`, `n`, NUL, `1`; the text returned is `on`, not the bytes read. -/
theorem C6_counterexample_reopen_embedded_nul :
    0 ≤ World.opened.led_fd ∧
    issued World.opened
        (Java_com_kieran_ledcontroller_NativeLib_nativeReadImpl
          (osStaleHandle [111, 110, 0, 49]) World.opened).2
      = [Event.lseekCall 3 0 SEEK_SET (-1), Event.closeCall 3,
          Event.openCall DEVICE_PATH OPEN_FLAGS 4, Event.readCall 4 255 4] ∧
    ((osStaleHandle [111, 110, 0, 49]).readRet
        (World.opened.trace ++ [Event.lseekCall 3 0 SEEK_SET (-1), Event.closeCall 3,
          Event.openCall DEVICE_PATH OPEN_FLAGS 4]) 4 255).data = [111, 110, 0, 49] ∧
    (Java_com_kieran_ledcontroller_NativeLib_nativeReadImpl
        (osStaleHandle [111, 110, 0, 49]) World.opened).1 = some (JString.text [111, 110]) ∧
    (Java_com_kieran_ledcontroller_NativeLib_nativeReadImpl
        (osStaleHandle [111, 110, 0, 49]) World.opened).1
      ≠ some (JString.text [111, 110, 0, 49]) := by
  decide

/-- C6, amended: with a valid handle whose reposition to offset 0 fails,
`nativeReadImpl` closes the old handle once, sets `led_fd` to -1 and attempts
exactly one open.  If that open fails, the call issues nothing else, returns
"unknown 0 0 0" and leaves the handle unopened.  If it succeeds, the call
issues no further reposition and exactly one read, on the new descriptor,
caches the new descriptor, returns "unknown 0 0 0" if the read returns ≤ 0, and
returns exactly the `n` bytes read if the read returns `n` with 1 ≤ n ≤ 255,
the driver having stored at least those `n` bytes, and they are well-formed
modified UTF-8 (so none of them is NUL). -/
theorem C6_reopen_on_reposition_failure (os : OS) (w : World) (s op : Int) (t1 : List Event)
    (hfd : 0 ≤ w.led_fd)
    (hs : (os.lseekRet w.trace w.led_fd 0 SEEK_SET).ret = s) (hfail : s < 0)
    (ht1 : t1 = w.trace ++ [Event.lseekCall w.led_fd 0 SEEK_SET s, Event.closeCall w.led_fd])
    (hop : (os.openRet t1 DEVICE_PATH OPEN_FLAGS).ret = op) :
    (afterSeekFailure os w w.led_fd).led_fd = -1 ∧
    (afterSeekFailure os w w.led_fd).trace = t1 ∧
    (op < 0 →
      issued w (Java_com_kieran_ledcontroller_NativeLib_nativeReadImpl os w).2
        = [Event.lseekCall w.led_fd 0 SEEK_SET s, Event.closeCall w.led_fd,
            Event.openCall DEVICE_PATH OPEN_FLAGS op] ∧
      (Java_com_kieran_ledcontroller_NativeLib_nativeReadImpl os w).1
        = some (JString.text (c_str "unknown 0 0 0")) ∧
      (Java_com_kieran_ledcontroller_NativeLib_nativeReadImpl os w).2.led_fd < 0) ∧
    (0 ≤ op → ∀ rd : ReadRet,
      os.readRet (t1 ++ [Event.openCall DEVICE_PATH OPEN_FLAGS op]) op 255 = rd →
      issued w (Java_com_kieran_ledcontroller_NativeLib_nativeReadImpl os w).2
        = [Event.lseekCall w.led_fd 0 SEEK_SET s, Event.closeCall w.led_fd,
            Event.openCall DEVICE_PATH OPEN_FLAGS op, Event.readCall op 255 rd.ret] ∧
      (Java_com_kieran_ledcontroller_NativeLib_nativeReadImpl os w).2.led_fd = op ∧
      (rd.ret ≤ 0 →
        (Java_com_kieran_ledcontroller_NativeLib_nativeReadImpl os w).1
          = some (JString.text (c_str "unknown 0 0 0"))) ∧
      (∀ n : Nat, rd.ret = n → 1 ≤ n → n ≤ 255 → n ≤ rd.data.length →
        wellFormedMUTF8 (rd.data.take n) = true →
        (Java_com_kieran_ledcontroller_NativeLib_nativeReadImpl os w).1
          = some (JString.text (rd.data.take n)))) := by
  have e := ensure_fd_valid os w hfd
  have ht : (afterSeekFailure os w w.led_fd).trace = t1 := by
    rw [afterSeekFailure_trace, hs, ht1]
  have hl : (afterSeekFailure os w w.led_fd).led_fd < 0 := by
    rw [afterSeekFailure_led_fd]; omega
  have e2 := ensure_fd_unopened os (afterSeekFailure os w w.led_fd) hl
  rw [ht, hop] at e2
  have hpath := read_path_seek_failed os w (by rw [e]; exact hfd)
    (by rw [e]; show (os.lseekRet w.trace w.led_fd 0 SEEK_SET).ret < 0; omega)
  rw [e] at hpath
  simp only [e2] at hpath
  refine ⟨rfl, ht, ?_, ?_⟩
  · intro hneg
    rw [hpath, if_pos hneg]
    refine ⟨?_, by rw [fallback_text], hneg⟩
    apply issued_append
    simp [android_log, ht1]
  · intro hpos rd hrd
    subst hrd
    rw [hpath, if_neg (by omega)]
    refine ⟨?_, ?_, ?_, ?_⟩
    · apply issued_append
      rw [readTail_trace]
      simp only [ht1, List.append_assoc, List.singleton_append, List.cons_append,
        List.nil_append]
    · rw [readTail_led_fd]
    · intro hle
      exact readTail_nonpositive os _ op hle
    · intro n h1 h2 h3 h4 h5
      exact readTail_bytes os _ op n h1 h2 h3 h4 h5

/-- C6 with descriptor 3 cached and gone stale: reposition fails, 3 is closed,
the device is reopened as 4 and the status `on 1 2 3` is read from 4. -/
theorem C6_reopen_on_reposition_failure_witness :
    issued World.opened
        (Java_com_kieran_ledcontroller_NativeLib_nativeReadImpl
          (osStaleHandle (c_str "on 1 2 3")) World.opened).2
      = [Event.lseekCall 3 0 SEEK_SET (-1), Event.closeCall 3,
          Event.openCall DEVICE_PATH OPEN_FLAGS 4, Event.readCall 4 255 8] ∧
    (Java_com_kieran_ledcontroller_NativeLib_nativeReadImpl
        (osStaleHandle (c_str "on 1 2 3")) World.opened).2.led_fd = 4 ∧
    (Java_com_kieran_ledcontroller_NativeLib_nativeReadImpl
        (osStaleHandle (c_str "on 1 2 3")) World.opened).1
      = some (JString.text (c_str "on 1 2 3")) :=
  have h := (C6_reopen_on_reposition_failure (osStaleHandle (c_str "on 1 2 3")) World.opened
    (-1) 4 (World.opened.trace ++ [Event.lseekCall 3 0 SEEK_SET (-1), Event.closeCall 3])
    (by decide) (by decide) (by decide) (by decide) (by decide)).2.2.2 (by decide)
    ⟨8, c_str "on 1 2 3", 0⟩ (by decide)
  ⟨h.1, h.2.1, h.2.2.2 8 (by decide) (by decide) (by decide) (by decide) (by decide)⟩

/-- C9: in every state reached from the initial state (handle unopened,
nothing open) by any sequence of `send` and `read_status` calls, whatever the
kernel answers, the channel holds at most one open descriptor; the cached
handle is valid exactly when it is that single open descriptor; with the
handle unopened nothing is held open (no leak); every `close` issued so far
came directly after a failed reposition to offset 0 of the descriptor closed;
and `send` never issues a `close`. -/
theorem C9_at_most_one_live_handle (os : OS) (calls : List Call) :
    (liveFds (run os calls World.init).trace).length ≤ 1 ∧
    (0 ≤ (run os calls World.init).led_fd ↔
      liveFds (run os calls World.init).trace = [(run os calls World.init).led_fd]) ∧
    ((run os calls World.init).led_fd < 0 → liveFds (run os calls World.init).trace = []) ∧
    closesJustified (run os calls World.init).trace = true ∧
    (∀ (w : World) (cmd : Option (List Nat)) (fd : Int), Event.closeCall fd ∉
      issued w (Java_com_kieran_ledcontroller_NativeLib_nativeWriteImpl os cmd w).2) := by
  obtain ⟨h1, h2⟩ := handle_invariant_run os calls World.init (by decide) (by decide)
  refine ⟨?_, ?_, ?_, h2, fun w cmd fd => send_issues_no_close os cmd w fd⟩
  · rw [h1]; split <;> simp
  · rw [h1]
    constructor
    · intro h; rw [if_pos h]
    · intro h
      by_contra hn
      rw [if_neg hn] at h
      exact absurd h (by simp)
  · intro h
    rw [h1, if_neg (by omega)]

/-- C7: with a valid cached handle `ensure_fd` returns that handle, issues no
system call (no open) and leaves the state unchanged; consequently, in any
sequence of `send` and `read_status` calls from the initial state in which the
first open succeeds, with descriptor `fd`, and no reposition fails, exactly one
open is issued in total, and after every call of the sequence the cached handle
is `fd` (or still the initial -1 while no call has opened the device yet),
whatever the writes and reads return. -/
theorem C7_handle_reuse (os : OS) :
    (∀ w : World, 0 ≤ w.led_fd →
      ensure_fd os w = (w.led_fd, w) ∧ issued w (ensure_fd os w).2 = []) ∧
    (∀ (calls : List Call) (fd : Int),
      firstOpen (run os calls World.init).trace = some fd → 0 ≤ fd →
      seekFailed (run os calls World.init).trace = false →
      countOpens (run os calls World.init).trace = 1 ∧
      ∀ k : Nat,
        (countOpens (run os (calls.take k) World.init).trace = 0 ∧
          (run os (calls.take k) World.init).led_fd = -1) ∨
        (countOpens (run os (calls.take k) World.init).trace = 1 ∧
          (run os (calls.take k) World.init).led_fd = fd)) := by
  constructor
  · intro w h
    have e := ensure_fd_valid os w h
    exact ⟨e, by rw [e]; simp [issued]⟩
  · intro calls fd hfirst hfd hseek
    have hinit : reuseInv World.init := Or.inl ⟨by decide, by decide⟩
    have hgood : ¬ ((∃ r, firstOpen (run os calls World.init).trace = some r ∧ r < 0) ∨
        seekFailed (run os calls World.init).trace = true) := by
      rintro (⟨r, h1, h2⟩ | h)
      · rw [hfirst] at h1
        cases h1
        omega
      · rw [hseek] at h
        cases h
    constructor
    · rcases reuseInv_run os calls World.init hinit with ⟨hc, _⟩ | ⟨hc, _, _⟩ | hbad
      · rw [countOpens_zero_firstOpen _ hc] at hfirst
        cases hfirst
      · exact hc
      · exact absurd hbad hgood
    · intro k
      obtain ⟨seg, hseg⟩ := run_extends os (calls.drop k) (run os (calls.take k) World.init)
      rw [← run_take_drop] at hseg
      rcases reuseInv_run os (calls.take k) World.init hinit with ⟨hc, hl⟩ | ⟨hc, _, hf⟩ | hbad
      · exact Or.inl ⟨hc, hl⟩
      · refine Or.inr ⟨hc, ?_⟩
        have := firstOpen_append_of_some _ seg _ hf
        rw [← hseg, hfirst] at this
        cases this
        rfl
      · exact absurd (hseg ▸ offScenario_append _ seg hbad) hgood

/-- C7 on the session ON, status, OFF, status with a working device: one open,
and descriptor 3 cached after every call. -/
theorem C7_handle_reuse_witness :
    (ensure_fd (osDevice (c_str "on 1 2 3")) World.opened = (World.opened.led_fd, World.opened) ∧
      issued World.opened (ensure_fd (osDevice (c_str "on 1 2 3")) World.opened).2 = []) ∧
    (countOpens (run (osDevice (c_str "on 1 2 3")) sampleSession World.init).trace = 1 ∧
      ∀ k : Nat,
        (countOpens (run (osDevice (c_str "on 1 2 3")) (sampleSession.take k)
            World.init).trace = 0 ∧
          (run (osDevice (c_str "on 1 2 3")) (sampleSession.take k) World.init).led_fd = -1) ∨
        (countOpens (run (osDevice (c_str "on 1 2 3")) (sampleSession.take k)
            World.init).trace = 1 ∧
          (run (osDevice (c_str "on 1 2 3")) (sampleSession.take k) World.init).led_fd = 3)) :=
  ⟨(C7_handle_reuse (osDevice (c_str "on 1 2 3"))).1 World.opened (by decide),
   (C7_handle_reuse (osDevice (c_str "on 1 2 3"))).2 sampleSession 3
      (by decide) (by decide) (by decide)⟩

end LedController
